import Mathlib

/-!
Verification of the AICamera repository: a shallow embedding of the
child-process lifecycle supervisor in `AIvisionGUI.py` (three task slots:
camera, QR reader, Model AI), of the output-drain loop, of the label-file
creation script `create_labels.py`, of the launch-command construction in
`QRReader.py` and `camera_pose_detection.py`, and of the object-detection
post-processing in `AIvisionProgram.py`.

External OS processes are modelled by a `World` of spawned process records;
`subprocess.Popen.terminate` delivers SIGTERM (the child dies promptly iff it
handles SIGTERM, recorded in `respondsToTerm`), `kill` delivers SIGKILL and
always ends the child.  The Tk console widget is modelled as the list of lines
printed to it (`print` appends, `console.delete` clears).
-/

namespace AICamera

/-! ### Process world -/

inductive TaskId where
  | camera
  | qr
  | model
deriving DecidableEq

structure Proc where
  pid : Nat
  task : TaskId
  /-- Whether the child exits promptly when it receives SIGTERM. -/
  respondsToTerm : Bool
  termRequested : Bool
  killed : Bool
  alive : Bool
deriving DecidableEq

structure World where
  procs : List Proc
  nextPid : Nat
deriving DecidableEq

def World.findProc (w : World) (pid : Nat) : Option Proc :=
  w.procs.find? (fun p => p.pid = pid)

def World.updateProc (w : World) (pid : Nat) (f : Proc → Proc) : World :=
  { w with procs := w.procs.map (fun p => if p.pid = pid then f p else p) }

/-- Embeds `Popen.terminate()`: SIGTERM; the child dies iff it responds to SIGTERM. -/
def World.terminate (w : World) (pid : Nat) : World :=
  w.updateProc pid (fun p =>
    { p with termRequested := true, alive := p.alive && !p.respondsToTerm })

/-- Embeds `Popen.kill()`: SIGKILL; the child is unconditionally ended. -/
def World.kill (w : World) (pid : Nat) : World :=
  w.updateProc pid (fun p => { p with killed := true, alive := false })

def World.isAlive (w : World) (pid : Nat) : Bool :=
  match w.findProc pid with
  | some p => p.alive
  | none => false

/-- Embeds `subprocess.Popen(...)`: spawn a fresh child for the given task. -/
def World.spawn (w : World) (task : TaskId) (respondsToTerm : Bool) :
    World × Nat :=
  ({ procs := w.procs ++
        [{ pid := w.nextPid, task := task, respondsToTerm := respondsToTerm,
           termRequested := false, killed := false, alive := true }],
     nextPid := w.nextPid + 1 }, w.nextPid)

/-- Number of live processes of one task kind. -/
def World.countAlive (w : World) (t : TaskId) : Nat :=
  (w.procs.filter (fun p => p.task == t && p.alive)).length

/-! ### GUI state (`AIVisionGUI.__init__` fields of `AIvisionGUI.py`) -/

structure GuiState where
  /-- Embeds `self.process` (camera slot handle, a pid). -/
  process : Option Nat
  /-- Embeds `self.camera_running`. -/
  camera_running : Bool
  /-- Embeds `self.qr_reader_process`. -/
  qr_reader_process : Option Nat
  /-- Embeds `self.model_ai_process`. -/
  model_ai_process : Option Nat
  /-- Embeds `self.status_label` text. -/
  statusText : String
  /-- Lines shown in the console widget (the display sink). -/
  console : List String
  /-- Whether `self.root.destroy()` has run. -/
  windowDestroyed : Bool
deriving DecidableEq

def initGui : GuiState :=
  { process := none, camera_running := false, qr_reader_process := none,
    model_ai_process := none, statusText := "Status: Ready", console := [],
    windowDestroyed := false }

def initWorld : World := { procs := [], nextPid := 0 }

/-- Outcome of a `subprocess.Popen` call attempted by a start operation:
either the spawn succeeds (and the child may or may not respond to SIGTERM),
or it raises an `OSError` with the given message. -/
inductive SpawnOutcome where
  | ok (respondsToTerm : Bool)
  | fail (msg : String)
deriving DecidableEq

/-- Which branch a start operation took. -/
inductive StartResult where
  | alreadyRunning
  | started
  | launchFailed
deriving DecidableEq

/-! ### Stop operations -/

/-- Embeds `AIVisionGUI.stop_model_ai`: terminate, `wait(timeout=2)`, kill on
`TimeoutExpired`, release the handle. -/
def stop_model_ai (s : GuiState) (w : World) : GuiState × World :=
  match s.model_ai_process with
  | some pid =>
      let console := s.console ++ ["Stopping Model AI Vision..."]
      let w := w.terminate pid
      let w := if w.isAlive pid then w.kill pid else w
      ({ s with model_ai_process := none,
                statusText := "Status: Model AI Vision Stopped",
                console := console }, w)
  | none => (s, w)

/-- Embeds `AIVisionGUI.stop_qr_reader`: same shape as `stop_model_ai`. -/
def stop_qr_reader (s : GuiState) (w : World) : GuiState × World :=
  match s.qr_reader_process with
  | some pid =>
      let console := s.console ++ ["Stopping QR Reader..."]
      let w := w.terminate pid
      let w := if w.isAlive pid then w.kill pid else w
      ({ s with qr_reader_process := none,
                statusText := "Status: QR Reader Stopped",
                console := console }, w)
  | none => (s, w)

/-- Embeds `AIVisionGUI.stop_camera`: guard `if self.process and self.camera_running`,
then `terminate()` only — no wait and no kill escalation. -/
def stop_camera (s : GuiState) (w : World) : GuiState × World :=
  match s.process with
  | some pid =>
      if s.camera_running then
        let w := w.terminate pid
        ({ s with process := none, camera_running := false,
                  statusText := "Status: Stopped",
                  console := s.console ++ ["Camera stopped by user"] }, w)
      else (s, w)
  | none => (s, w)

/-! ### Start operations -/

/-- Embeds `AIVisionGUI.start_model_ai`. -/
def start_model_ai (s : GuiState) (w : World) (sp : SpawnOutcome) :
    GuiState × World × StartResult :=
  if s.model_ai_process.isSome then (s, w, StartResult.alreadyRunning)
  else
    let sw := if s.camera_running then stop_camera s w else (s, w)
    let sw := if sw.1.qr_reader_process.isSome then
                stop_qr_reader sw.1 sw.2 else sw
    let s := { sw.1 with statusText := "Status: Starting Model AI Vision...",
                         console := [] }
    let w := sw.2
    match sp with
    | SpawnOutcome.ok responds =>
        let console := s.console ++ ["Starting Model AI Vision application..."]
        let wp := w.spawn TaskId.model responds
        ({ s with model_ai_process := some wp.2,
                  statusText := "Status: Model AI Vision Running",
                  console := console ++ ["Model AI Vision started successfully"] },
         wp.1, StartResult.started)
    | SpawnOutcome.fail msg =>
        ({ s with model_ai_process := none,
                  statusText := "Status: Error - " ++ msg,
                  console := s.console ++
                    ["Starting Model AI Vision application...",
                     "Error starting Model AI Vision: " ++ msg] },
         w, StartResult.launchFailed)

/-- Embeds `AIVisionGUI.start_qr_reader`. -/
def start_qr_reader (s : GuiState) (w : World) (sp : SpawnOutcome) :
    GuiState × World × StartResult :=
  if s.qr_reader_process.isSome then (s, w, StartResult.alreadyRunning)
  else
    let sw := if s.camera_running then stop_camera s w else (s, w)
    let sw := if sw.1.model_ai_process.isSome then
                stop_model_ai sw.1 sw.2 else sw
    let s := { sw.1 with statusText := "Status: Starting QR Reader...",
                         console := [] }
    let w := sw.2
    match sp with
    | SpawnOutcome.ok responds =>
        let console := s.console ++ ["Starting QR Reader application..."]
        let wp := w.spawn TaskId.qr responds
        ({ s with qr_reader_process := some wp.2,
                  statusText := "Status: QR Reader Running",
                  console := console ++ ["QR Reader started successfully"] },
         wp.1, StartResult.started)
    | SpawnOutcome.fail msg =>
        ({ s with qr_reader_process := none,
                  statusText := "Status: Error - " ++ msg,
                  console := s.console ++
                    ["Starting QR Reader application...",
                     "Error starting QR Reader: " ++ msg] },
         w, StartResult.launchFailed)

/-- The fixed command list built in `AIVisionGUI._run_camera_thread`. -/
def cameraCmd : List String :=
  ["rpicam-hello", "-t", "0s",
   "--post-process-file", "/usr/share/rpi-camera-assets/imx500_mobilenet_ssd.json",
   "--viewfinder-width", "1920", "--viewfinder-height", "1080",
   "--framerate", "30"]

/-- Embeds `AIVisionGUI._camera_stopped`. -/
def camera_stopped (s : GuiState) : GuiState :=
  { s with camera_running := false, statusText := "Status: Ready",
           process := none }

/-- Embeds `AIVisionGUI.start_camera` together with `_run_camera_thread` run up to the
`Popen` call (the blocking `process.wait()` is modelled by the separate
`camera_exit_event` below); the `except` branch of the thread runs
`_camera_stopped`. -/
def start_camera (s : GuiState) (w : World) (sp : SpawnOutcome) :
    GuiState × World × StartResult :=
  if s.camera_running then (s, w, StartResult.alreadyRunning)
  else
    let sw := if s.qr_reader_process.isSome then stop_qr_reader s w else (s, w)
    let sw := if sw.1.model_ai_process.isSome then
                stop_model_ai sw.1 sw.2 else sw
    let s := { sw.1 with camera_running := true,
                         statusText := "Status: Running", console := [] }
    let w := sw.2
    let console := s.console ++
      ["Starting AI camera with object detection...",
       "Command: " ++ String.intercalate " " cameraCmd]
    match sp with
    | SpawnOutcome.ok responds =>
        let wp := w.spawn TaskId.camera responds
        ({ s with process := some wp.2, console := console },
         wp.1, StartResult.started)
    | SpawnOutcome.fail msg =>
        ({ s with console := console ++ ["Error running camera: " ++ msg],
                  camera_running := false, process := none,
                  statusText := "Status: Ready" },
         w, StartResult.launchFailed)

/-! ### Output drain (`_read_model_ai_output` / `_model_ai_stopped`) -/

/-- Python `str.strip()`: remove leading and trailing whitespace. -/
def pyStrip (s : String) : String :=
  String.mk
    (((s.data.dropWhile Char.isWhitespace).reverse.dropWhile
        Char.isWhitespace).reverse)

def rcToString : Option Int → String
  | none => "None"
  | some c => toString c

/-- Embeds `AIVisionGUI._model_ai_stopped` (the `root.after` callback). -/
def model_ai_stopped (s : GuiState) (rc : Option Int) : GuiState :=
  { s with model_ai_process := none,
           statusText :=
             "Status: Model AI Vision Exited (code: " ++ rcToString rc ++ ")",
           console := s.console ++
             ["Model AI Vision process ended with code: " ++ rcToString rc] }

/-- The `while self.model_ai_process:` read loop of `_read_model_ai_output`,
applied to the full list of lines the child will produce; each line is
stripped and tagged before being forwarded to the console sink. -/
def drain_loop (s : GuiState) : List String → GuiState
  | [] => s
  | line :: rest =>
      if s.model_ai_process.isSome then
        drain_loop
          { s with console := s.console ++ ["Model AI: " ++ pyStrip line] } rest
      else s

/-- Embeds `AIVisionGUI._read_model_ai_output`, run to completion on a child that
produced `lines` and then exited with `exitCode`: drain every line, then on
end-of-stream check the handle and the exit code and invoke
`_model_ai_stopped`. -/
def read_model_ai_output (s : GuiState) (lines : List String)
    (exitCode : Int) : GuiState :=
  let s := drain_loop s lines
  match s.model_ai_process with
  | some _ => model_ai_stopped s (some exitCode)
  | none => s

/-- Embeds `AIVisionGUI._qr_reader_stopped`. -/
def qr_reader_stopped (s : GuiState) (rc : Option Int) : GuiState :=
  { s with qr_reader_process := none,
           statusText :=
             "Status: QR Reader Exited (code: " ++ rcToString rc ++ ")",
           console := s.console ++
             ["QR Reader process ended with code: " ++ rcToString rc] }

/-- The read loop of `_read_qr_reader_output`. -/
def qr_drain_loop (s : GuiState) : List String → GuiState
  | [] => s
  | line :: rest =>
      if s.qr_reader_process.isSome then
        qr_drain_loop
          { s with console := s.console ++ ["QR Reader: " ++ pyStrip line] } rest
      else s

/-- Embeds `AIVisionGUI._read_qr_reader_output`, run to completion. -/
def read_qr_reader_output (s : GuiState) (lines : List String)
    (exitCode : Int) : GuiState :=
  let s := qr_drain_loop s lines
  match s.qr_reader_process with
  | some _ => qr_reader_stopped s (some exitCode)
  | none => s

/-! ### Shutdown and public-operation events -/

/-- Embeds `AIVisionGUI.close_application`. -/
def close_application (s : GuiState) (w : World) : GuiState × World :=
  let sw := if s.camera_running then stop_camera s w else (s, w)
  let sw := if sw.1.qr_reader_process.isSome then
              stop_qr_reader sw.1 sw.2 else sw
  let sw := if sw.1.model_ai_process.isSome then
              stop_model_ai sw.1 sw.2 else sw
  ({ sw.1 with windowDestroyed := true }, sw.2)

/-- The supervisor's public operations, plus the environment events in which a
child exits on its own and the matching exit callback runs. -/
inductive Event where
  | startModelAi (sp : SpawnOutcome)
  | stopModelAi
  | startQr (sp : SpawnOutcome)
  | stopQr
  | startCamera (sp : SpawnOutcome)
  | stopCamera
  | toggleModelAi (sp : SpawnOutcome)
  | toggleQr (sp : SpawnOutcome)
  | toggleCamera (sp : SpawnOutcome)
  | modelExited (lines : List String) (code : Int)
  | qrExited (lines : List String) (code : Int)
  | cameraExited
  | close
deriving DecidableEq

/-- The Model AI child exits with `code` after producing `lines`; the drain
thread observes end-of-stream and runs the `_model_ai_stopped` callback. -/
def model_exit_event (s : GuiState) (w : World) (lines : List String)
    (code : Int) : GuiState × World :=
  match s.model_ai_process with
  | some pid =>
      (read_model_ai_output s lines code,
       w.updateProc pid (fun p => { p with alive := false }))
  | none => (s, w)

/-- The QR child exits with `code` after producing `lines`. -/
def qr_exit_event (s : GuiState) (w : World) (lines : List String)
    (code : Int) : GuiState × World :=
  match s.qr_reader_process with
  | some pid =>
      (read_qr_reader_output s lines code,
       w.updateProc pid (fun p => { p with alive := false }))
  | none => (s, w)

/-- The camera child exits; `process.wait()` returns in `_run_camera_thread`
and `_camera_stopped` runs. -/
def camera_exit_event (s : GuiState) (w : World) : GuiState × World :=
  match s.process with
  | some pid =>
      (camera_stopped s, w.updateProc pid (fun p => { p with alive := false }))
  | none => (s, w)

def step (sw : GuiState × World) : Event → GuiState × World
  | Event.startModelAi sp =>
      let r := start_model_ai sw.1 sw.2 sp
      (r.1, r.2.1)
  | Event.stopModelAi => stop_model_ai sw.1 sw.2
  | Event.startQr sp =>
      let r := start_qr_reader sw.1 sw.2 sp
      (r.1, r.2.1)
  | Event.stopQr => stop_qr_reader sw.1 sw.2
  | Event.startCamera sp =>
      let r := start_camera sw.1 sw.2 sp
      (r.1, r.2.1)
  | Event.stopCamera => stop_camera sw.1 sw.2
  | Event.toggleModelAi sp =>
      -- `toggle_model_ai`: start if the handle is None, else stop.
      if sw.1.model_ai_process.isSome then stop_model_ai sw.1 sw.2
      else
        let r := start_model_ai sw.1 sw.2 sp
        (r.1, r.2.1)
  | Event.toggleQr sp =>
      if sw.1.qr_reader_process.isSome then stop_qr_reader sw.1 sw.2
      else
        let r := start_qr_reader sw.1 sw.2 sp
        (r.1, r.2.1)
  | Event.toggleCamera sp =>
      -- `toggle_camera`: start if not camera_running, else stop.
      if sw.1.camera_running then stop_camera sw.1 sw.2
      else
        let r := start_camera sw.1 sw.2 sp
        (r.1, r.2.1)
  | Event.modelExited lines code => model_exit_event sw.1 sw.2 lines code
  | Event.qrExited lines code => qr_exit_event sw.1 sw.2 lines code
  | Event.cameraExited => camera_exit_event sw.1 sw.2
  | Event.close => close_application sw.1 sw.2

def init : GuiState × World := (initGui, initWorld)

def run (sw : GuiState × World) (evs : List Event) : GuiState × World :=
  evs.foldl step sw

/-- Number of task slots currently holding a handle. -/
def activeSlots (s : GuiState) : Nat :=
  (if s.process.isSome then 1 else 0) +
  (if s.qr_reader_process.isSome then 1 else 0) +
  (if s.model_ai_process.isSome then 1 else 0)

/-- The spec's per-task lifecycle states (section 3 of the spec). -/
inductive Lifecycle where
  | idle
  | starting
  | running
  | stopping
  | failed
deriving DecidableEq

/-- The lifecycle state the code can actually express for the Model AI slot:
the handle field is either a live handle (`Running`) or `None` (`Idle`). -/
def modelSlotLifecycle (s : GuiState) : Lifecycle :=
  if s.model_ai_process.isSome then Lifecycle.running else Lifecycle.idle

/-! ### Interleaved view of the Model AI drain thread and `stop_model_ai`

`_read_model_ai_output` runs on its own daemon thread while `stop_model_ai`
runs on the UI thread.  The state below records where the drain thread is
(`drainActive`), the lines the child has yet to produce, and whether a
`root.after(0, self._model_ai_stopped)` callback is pending. -/

structure DrainState where
  model_ai_process : Option Nat
  procAlive : Bool
  exitCode : Int
  linesLeft : List String
  console : List String
  stoppedCallbackPending : Bool
  /-- The drain thread is still inside its `while` loop. -/
  drainActive : Bool
  statusText : String
deriving DecidableEq

inductive CAction where
  /-- One iteration of the drain thread's read loop (or its loop-exit check). -/
  | drainStep
  /-- Embeds `stop_model_ai` run atomically on the UI thread: terminate, wait, kill
  on timeout, clear the handle.  It performs no join on the drain thread. -/
  | stopModelAi
  /-- Tk delivers a pending `_model_ai_stopped` callback. -/
  | runCallback
deriving DecidableEq

def cstep (c : DrainState) : CAction → DrainState
  | CAction.drainStep =>
      if c.drainActive then
        match c.model_ai_process with
        | none =>
            -- `while self.model_ai_process:` is false: leave the loop; the
            -- final `if self.model_ai_process and ...` is also false, so no
            -- callback is scheduled.
            { c with drainActive := false }
        | some _ =>
            match c.linesLeft with
            | line :: rest =>
                { c with console := c.console ++ ["Model AI: " ++ pyStrip line],
                         linesLeft := rest }
            | [] =>
                if c.procAlive then c
                else
                  -- readline gave no data and poll() is not None: break, then
                  -- schedule `_model_ai_stopped` via `root.after`.
                  { c with drainActive := false,
                           stoppedCallbackPending := true }
      else c
  | CAction.stopModelAi =>
      match c.model_ai_process with
      | some _ =>
          { c with console := c.console ++ ["Stopping Model AI Vision..."],
                   procAlive := false, model_ai_process := none,
                   statusText := "Status: Model AI Vision Stopped" }
      | none => c
  | CAction.runCallback =>
      if c.stoppedCallbackPending then
        { c with stoppedCallbackPending := false, model_ai_process := none,
                 statusText := "Status: Model AI Vision Exited (code: " ++
                   rcToString (if c.model_ai_process.isSome then
                                 some c.exitCode else none) ++ ")",
                 console := c.console ++
                   ["Model AI Vision process ended with code: " ++
                    rcToString (if c.model_ai_process.isSome then
                                  some c.exitCode else none)] }
      else c

/-- State right after `start_model_ai` spawned the child and started the drain
thread: handle set, child alive, drain thread at its loop head. -/
def drainInit (lines : List String) (code : Int) : DrainState :=
  { model_ai_process := some 1, procAlive := true, exitCode := code,
    linesLeft := lines, console := [], stoppedCallbackPending := false,
    drainActive := true, statusText := "Status: Model AI Vision Running" }

def crun (c : DrainState) (as : List CAction) : DrainState :=
  as.foldl cstep c

/-! ### Launch-command construction (`camera_pose_detection.py`, `QRReader.py`) -/

/-- The command list built in
`camera_pose_detection.run_camera_with_pose_detection`: numeric flags pass
through `str(...)` unchanged, except the duration which is rendered with an
`s` suffix. -/
def pose_detection_cmd (duration width height framerate : Int)
    (model_path : String) : List String :=
  ["rpicam-hello",
   "-t", toString duration ++ "s",
   "--post-process-file", model_path,
   "--viewfinder-width", toString width,
   "--viewfinder-height", toString height,
   "--framerate", toString framerate]

/-- The capture command built in `QRCodeReaderGUI._capture_frames`. -/
def qr_capture_cmd (width height : Int) (temp_file : String) : List String :=
  ["libcamera-still",
   "--width", toString width,
   "--height", toString height,
   "--output", temp_file,
   "--immediate", "--nopreview", "--timeout", "1"]

/-- Embeds `QRReader.main`: `framerate = max(1, min(10, args.framerate))`. -/
def qr_main_framerate (f : Int) : Int := max 1 (min 10 f)

/-! ### Object-detection post-processing (`AIvisionProgram.py`)

Model-output scores are embedded as rationals; `int(...)` truncation toward
zero is `pyInt`.  Python exceptions (an `IndexError` from a negative class id
reaching past the front of the label list) are modelled with `Except`. -/

/-- Python `int(x)` on a number: truncation toward zero. -/
def pyInt (q : ℚ) : Int := if 0 ≤ q then ⌊q⌋ else ⌈q⌉

/-- Python `l[i]` on a list, with negative-index wrap-around and
`IndexError` out of range. -/
def pyListGet (l : List String) (i : Int) : Except String String :=
  let j : Int := if i < 0 then (l.length : Int) + i else i
  if 0 ≤ j then
    match l.get? j.toNat with
    | some x => Except.ok x
    | none => Except.error "IndexError: list index out of range"
  else Except.error "IndexError: list index out of range"

/-- One row `output_data[0][i]` of the detection tensor; field `vK` is entry
`output_data[0][i][K]`: normalized ymin, xmin, ymax, xmax, then the
confidence score and the class id. -/
structure DetRow where
  v0 : ℚ
  v1 : ℚ
  v2 : ℚ
  v3 : ℚ
  v4 : ℚ
  v5 : ℚ
deriving DecidableEq

/-- One loop iteration of `AIVisionGUI._process_object_detection`: `none`
when the row is skipped by the confidence threshold (`continue`), otherwise
the `(label, score, (xmin, ymin, xmax, ymax))` tuple appended to `results`.
The `print` side effect is not part of the returned value. -/
def processDetRow (labels : List String) (img_width img_height : Int)
    (row : DetRow) :
    Except String (Option (String × ℚ × (Int × Int × Int × Int))) :=
  let score := row.v4
  if score < 1/2 then Except.ok none
  else
    let class_id : Int := pyInt row.v5
    let labelE : Except String String :=
      if class_id < (labels.length : Int) then pyListGet labels class_id
      else Except.ok ("Class " ++ toString class_id)
    match labelE with
    | Except.error e => Except.error e
    | Except.ok label =>
        let ymin := pyInt (max 1 (row.v0 * img_height))
        let xmin := pyInt (max 1 (row.v1 * img_width))
        let ymax := pyInt (min img_height (row.v2 * img_height))
        let xmax := pyInt (min img_width (row.v3 * img_width))
        Except.ok (some (label, score, (xmin, ymin, xmax, ymax)))

/-- Embeds `AIVisionGUI._process_object_detection`: the loop over
`output_data[0]`, collecting the detections that pass the threshold in
order; a raised `IndexError` aborts the whole call. -/
def process_object_detection (labels : List String)
    (img_width img_height : Int) :
    List DetRow → Except String (List (String × ℚ × (Int × Int × Int × Int)))
  | [] => Except.ok []
  | row :: rest =>
      match processDetRow labels img_width img_height row with
      | Except.error e => Except.error e
      | Except.ok none => process_object_detection labels img_width img_height rest
      | Except.ok (some d) =>
          match process_object_detection labels img_width img_height rest with
          | Except.error e => Except.error e
          | Except.ok ds => Except.ok (d :: ds)

/-! ### Label-file creation (`create_labels.py`) -/

def COCO_LABELS : List String :=
  ["person", "bicycle", "car", "motorcycle", "airplane", "bus", "train",
   "truck", "boat", "traffic light", "fire hydrant", "stop sign",
   "parking meter", "bench", "bird", "cat", "dog", "horse", "sheep", "cow",
   "elephant", "bear", "zebra", "giraffe", "backpack", "umbrella", "handbag",
   "tie", "suitcase", "frisbee", "skis", "snowboard", "sports ball", "kite",
   "baseball bat", "baseball glove", "skateboard", "surfboard",
   "tennis racket", "bottle", "wine glass", "cup", "fork", "knife", "spoon",
   "bowl", "banana", "apple", "sandwich", "orange", "broccoli", "carrot",
   "hot dog", "pizza", "donut", "cake", "chair", "couch", "potted plant",
   "bed", "dining table", "toilet", "tv", "laptop", "mouse", "remote",
   "keyboard", "cell phone", "microwave", "oven", "toaster", "sink",
   "refrigerator", "book", "clock", "vase", "scissors", "teddy bear",
   "hair drier", "toothbrush"]

def IMAGENET_LABELS : List String :=
  ["tench", "goldfish", "great white shark", "tiger shark",
   "hammerhead shark", "electric ray", "stingray", "rooster", "hen",
   "ostrich", "brambling", "goldfinch", "house finch", "junco",
   "indigo bunting", "American robin", "bulbul", "jay", "magpie",
   "chickadee"]

/-- Python `str.rfind` for a single character over a char list: index of the
last occurrence, `-1` when absent. -/
def rfindAux (c : Char) : List Char → Int → Int → Int
  | [], _, best => best
  | x :: xs, i, best => rfindAux c xs (i + 1) (if x = c then i else best)

def rfind (l : List Char) (c : Char) : Int := rfindAux c l 0 (-1)

/-- The while loop of `posixpath._splitext` that skips the leading dots of
the basename: true iff some character in `[i, j)` differs from `.`. -/
def hasNonDot (cs : List Char) (i j : Int) : Bool :=
  ((cs.drop i.toNat).take (j - i).toNat).any (fun ch => ch != '.')

/-- Embeds `os.path.splitext` (posix): split off the extension at the last dot of
the basename, unless the basename consists only of leading dots up to it. -/
def splitext (p : String) : String × String :=
  let cs := p.data
  let sepIndex := rfind cs '/'
  let dotIndex := rfind cs '.'
  if sepIndex < dotIndex then
    if hasNonDot cs (sepIndex + 1) dotIndex then
      (String.mk (cs.take dotIndex.toNat), String.mk (cs.drop dotIndex.toNat))
    else (p, "")
  else (p, "")

/-- Python `str.lower()` (ASCII): lowercase every character. -/
def pyLower (s : String) : String :=
  String.mk (s.data.map Char.toLower)

/-- The file system as an association of path to contents; a written file is
consed at the front and lookups take the first match. -/
abbrev FS := List (String × String)

def fsLookup (fs : FS) (p : String) : Option String :=
  (List.find? (fun e => e.1 = p) fs).map (fun e => e.2)

/-- Embeds `os.path.exists`. -/
def fsExists (fs : FS) (p : String) : Bool :=
  (List.find? (fun e => e.1 = p) fs).isSome

/-- Embeds `open(label_file, "w")` followed by one `f.write(label + "\n")` per
label. -/
def renderLabels (labels : List String) : String :=
  String.join (labels.map (fun l => l ++ "\n"))

/-- Embeds `create_labels.create_label_file`: returns the file system after the call
together with the printed lines. -/
def create_label_file (fs : FS) (model_path : String) (label_type : String) :
    FS × List String :=
  let base_path := (splitext model_path).1
  let label_file := base_path ++ ".txt"
  if fsExists fs label_file then
    (fs, ["Label file already exists: " ++ label_file])
  else
    let labelsChoice : Option (List String) :=
      if pyLower label_type = "coco" then some COCO_LABELS
      else if pyLower label_type = "imagenet" then some IMAGENET_LABELS
      else none
    match labelsChoice with
    | none => (fs, ["Unknown label type: " ++ label_type])
    | some labels =>
        ((label_file, renderLabels labels) :: fs,
         ["Created label file: " ++ label_file ++ " with " ++
          toString labels.length ++ " labels"])

/-! ### Invariant of the supervisor state -/

/-- Well-formedness maintained by every public operation: the camera flag and
the camera handle agree, and at most one slot holds a handle. -/
def Inv (sw : GuiState × World) : Prop :=
  sw.1.camera_running = sw.1.process.isSome ∧ activeSlots sw.1 ≤ 1


/-- State and world right after a successful camera start from the initial
state (used to instantiate theorems at a concrete input). -/
def afterCameraStart : GuiState × World :=
  run init [Event.startCamera (SpawnOutcome.ok true)]

/-- State and world right after a successful Model AI start from the initial
state. -/
def afterModelStart : GuiState × World :=
  run init [Event.startModelAi (SpawnOutcome.ok false)]

/-- State and world right after a successful QR Reader start from the initial
state. -/
def afterQrStart : GuiState × World :=
  run init [Event.startQr (SpawnOutcome.ok false)]

/-- State and world right after starting a camera child that ignores
SIGTERM. -/
def afterCameraStartStubborn : GuiState × World :=
  run init [Event.startCamera (SpawnOutcome.ok false)]

/-! ## Helper lemmas -/

theorem findProc_updateProc (w : World) (pid pid2 : Nat) (f : Proc → Proc)
    (hf : ∀ p, (f p).pid = p.pid) :
    (w.updateProc pid2 f).findProc pid =
      if pid = pid2 then (w.findProc pid).map f else w.findProc pid := by
  unfold World.updateProc World.findProc
  induction w.procs with
  | nil => by_cases h : pid = pid2 <;> simp [h]
  | cons p ps ih =>
      by_cases h2 : p.pid = pid2 <;> by_cases h1 : p.pid = pid
      · have hpp : pid = pid2 := h1 ▸ h2
        simp [h2, h1, hf, hpp]
      · simp only [List.map_cons, if_pos h2]
        rw [List.find?_cons_of_neg, List.find?_cons_of_neg] <;>
          simp_all [hf]
      · have hpp : ¬ pid = pid2 := fun hc => h2 (hc ▸ h1)
        simp [h2, h1, hpp]
      · simp only [List.map_cons, if_neg h2]
        rw [List.find?_cons_of_neg, List.find?_cons_of_neg] <;>
          simp_all

theorem findProc_terminate (w : World) (pid pid2 : Nat) :
    (w.terminate pid2).findProc pid =
      if pid = pid2 then
        (w.findProc pid).map (fun p =>
          { p with termRequested := true,
                   alive := p.alive && !p.respondsToTerm })
      else w.findProc pid := by
  unfold World.terminate
  exact findProc_updateProc w pid pid2 _ (fun p => rfl)

theorem findProc_kill (w : World) (pid pid2 : Nat) :
    (w.kill pid2).findProc pid =
      if pid = pid2 then
        (w.findProc pid).map (fun p => { p with killed := true, alive := false })
      else w.findProc pid := by
  unfold World.kill
  exact findProc_updateProc w pid pid2 _ (fun p => rfl)

theorem isAlive_kill_self (w : World) (pid : Nat) :
    (w.kill pid).isAlive pid = false := by
  unfold World.isAlive
  rw [findProc_kill]
  simp
  cases w.findProc pid <;> simp

theorem isAlive_terminate_dead (w : World) (pid pid2 : Nat)
    (h : w.isAlive pid = false) : (w.terminate pid2).isAlive pid = false := by
  unfold World.isAlive at h ⊢
  rw [findProc_terminate]
  by_cases hp : pid = pid2
  · subst hp
    simp only [if_pos rfl]
    cases hw : w.findProc pid with
    | none => simp
    | some q =>
        rw [hw] at h
        simp_all
  · simp only [hp, if_false]
    exact h

theorem isAlive_kill_dead (w : World) (pid pid2 : Nat)
    (h : w.isAlive pid = false) : (w.kill pid2).isAlive pid = false := by
  unfold World.isAlive at h ⊢
  rw [findProc_kill]
  by_cases hp : pid = pid2
  · subst hp
    simp only [if_pos rfl]
    cases hw : w.findProc pid with
    | none => simp
    | some q => simp
  · simp only [hp, if_false]
    exact h

/-- After `stop_model_ai` on a non-idle slot the handle is released and the
child is no longer alive (terminate, wait, kill on timeout). -/
theorem stop_model_ai_dead (s : GuiState) (w : World) (pid : Nat)
    (h : s.model_ai_process = some pid) :
    (stop_model_ai s w).1.model_ai_process = none ∧
    (stop_model_ai s w).2.isAlive pid = false := by
  unfold stop_model_ai
  rw [h]
  refine ⟨rfl, ?_⟩
  by_cases ha : (w.terminate pid).isAlive pid
  · simp only [ha, if_true]
    exact isAlive_kill_self _ pid
  · simp only [ha, if_false]
    simpa using ha

/-- After `stop_qr_reader` on a non-idle slot the handle is released and the
child is no longer alive. -/
theorem stop_qr_reader_dead (s : GuiState) (w : World) (pid : Nat)
    (h : s.qr_reader_process = some pid) :
    (stop_qr_reader s w).1.qr_reader_process = none ∧
    (stop_qr_reader s w).2.isAlive pid = false := by
  unfold stop_qr_reader
  rw [h]
  refine ⟨rfl, ?_⟩
  by_cases ha : (w.terminate pid).isAlive pid
  · simp only [ha, if_true]
    exact isAlive_kill_self _ pid
  · simp only [ha, if_false]
    simpa using ha

/-- Running `stop_camera` on a running slot: the handle is released but the world only
records a SIGTERM request; the child stays alive iff it ignores SIGTERM. -/
theorem stop_camera_term_only (s : GuiState) (w : World) (pid : Nat)
    (hp : s.process = some pid) (hr : s.camera_running = true) :
    (stop_camera s w).1.process = none ∧
    (stop_camera s w).1.camera_running = false ∧
    (stop_camera s w).2.findProc pid =
      (w.findProc pid).map (fun p =>
        { p with termRequested := true,
                 alive := p.alive && !p.respondsToTerm }) := by
  unfold stop_camera
  rw [hp]
  simp [hr, findProc_terminate]

theorem drain_loop_none (lines : List String) (s : GuiState)
    (h : s.model_ai_process = none) : drain_loop s lines = s := by
  cases lines with
  | nil => rfl
  | cons l rest => unfold drain_loop; simp [h]

theorem drain_loop_eq (lines : List String) : ∀ s : GuiState,
    s.model_ai_process.isSome = true →
    drain_loop s lines =
      { s with console :=
          s.console ++ lines.map (fun l => "Model AI: " ++ pyStrip l) } := by
  induction lines with
  | nil => intro s _; simp [drain_loop]
  | cons l rest ih =>
      intro s h
      unfold drain_loop
      simp only [h, if_true]
      rw [ih _ (by simpa using h)]
      simp

theorem qr_drain_loop_none (lines : List String) (s : GuiState)
    (h : s.qr_reader_process = none) : qr_drain_loop s lines = s := by
  cases lines with
  | nil => rfl
  | cons l rest => unfold qr_drain_loop; simp [h]

theorem qr_drain_loop_eq (lines : List String) : ∀ s : GuiState,
    s.qr_reader_process.isSome = true →
    qr_drain_loop s lines =
      { s with console :=
          s.console ++ lines.map (fun l => "QR Reader: " ++ pyStrip l) } := by
  induction lines with
  | nil => intro s _; simp [qr_drain_loop]
  | cons l rest ih =>
      intro s h
      unfold qr_drain_loop
      simp only [h, if_true]
      rw [ih _ (by simpa using h)]
      simp

theorem inv_stop_camera (s : GuiState) (w : World) (h : Inv (s, w)) :
    Inv (stop_camera s w) := by
  obtain ⟨pr, cr, qrp, mo, st, co, wd⟩ := s
  obtain ⟨h1, h2⟩ := h
  rcases pr with _ | pid <;> rcases cr <;> rcases qrp with _ | qid <;>
    rcases mo with _ | mid <;>
    simp_all [stop_camera, Inv, activeSlots]

theorem inv_stop_qr_reader (s : GuiState) (w : World) (h : Inv (s, w)) :
    Inv (stop_qr_reader s w) := by
  obtain ⟨pr, cr, qrp, mo, st, co, wd⟩ := s
  obtain ⟨h1, h2⟩ := h
  rcases pr with _ | pid <;> rcases cr <;> rcases qrp with _ | qid <;>
    rcases mo with _ | mid <;>
    simp_all [stop_qr_reader, Inv, activeSlots]

theorem inv_stop_model_ai (s : GuiState) (w : World) (h : Inv (s, w)) :
    Inv (stop_model_ai s w) := by
  obtain ⟨pr, cr, qrp, mo, st, co, wd⟩ := s
  obtain ⟨h1, h2⟩ := h
  rcases pr with _ | pid <;> rcases cr <;> rcases qrp with _ | qid <;>
    rcases mo with _ | mid <;>
    simp_all [stop_model_ai, Inv, activeSlots]

theorem inv_start_model_ai (s : GuiState) (w : World) (sp : SpawnOutcome)
    (h : Inv (s, w)) :
    Inv ((start_model_ai s w sp).1, (start_model_ai s w sp).2.1) := by
  obtain ⟨pr, cr, qrp, mo, st, co, wd⟩ := s
  obtain ⟨h1, h2⟩ := h
  rcases pr with _ | pid <;> rcases cr <;> rcases qrp with _ | qid <;>
    rcases mo with _ | mid <;> rcases sp with b | msg <;>
    simp_all [start_model_ai, stop_camera, stop_qr_reader, Inv, activeSlots,
      World.spawn]

theorem inv_start_qr_reader (s : GuiState) (w : World) (sp : SpawnOutcome)
    (h : Inv (s, w)) :
    Inv ((start_qr_reader s w sp).1, (start_qr_reader s w sp).2.1) := by
  obtain ⟨pr, cr, qrp, mo, st, co, wd⟩ := s
  obtain ⟨h1, h2⟩ := h
  rcases pr with _ | pid <;> rcases cr <;> rcases qrp with _ | qid <;>
    rcases mo with _ | mid <;> rcases sp with b | msg <;>
    simp_all [start_qr_reader, stop_camera, stop_model_ai, Inv, activeSlots,
      World.spawn]

theorem inv_start_camera (s : GuiState) (w : World) (sp : SpawnOutcome)
    (h : Inv (s, w)) :
    Inv ((start_camera s w sp).1, (start_camera s w sp).2.1) := by
  obtain ⟨pr, cr, qrp, mo, st, co, wd⟩ := s
  obtain ⟨h1, h2⟩ := h
  rcases pr with _ | pid <;> rcases cr <;> rcases qrp with _ | qid <;>
    rcases mo with _ | mid <;> rcases sp with b | msg <;>
    simp_all [start_camera, stop_qr_reader, stop_model_ai, Inv, activeSlots,
      World.spawn]

theorem inv_model_exit_event (s : GuiState) (w : World) (lines : List String)
    (code : Int) (h : Inv (s, w)) :
    Inv (model_exit_event s w lines code) := by
  obtain ⟨h1, h2⟩ := h
  unfold model_exit_event
  cases hm : s.model_ai_process with
  | none => exact ⟨h1, h2⟩
  | some mid =>
      unfold read_model_ai_output
      rw [drain_loop_eq lines s (by simp [hm])]
      simp only [hm]
      constructor
      · exact h1
      · simp_all [activeSlots, model_ai_stopped]

theorem inv_qr_exit_event (s : GuiState) (w : World) (lines : List String)
    (code : Int) (h : Inv (s, w)) :
    Inv (qr_exit_event s w lines code) := by
  obtain ⟨h1, h2⟩ := h
  unfold qr_exit_event
  cases hq : s.qr_reader_process with
  | none => exact ⟨h1, h2⟩
  | some qid =>
      unfold read_qr_reader_output
      rw [qr_drain_loop_eq lines s (by simp [hq])]
      simp only [hq]
      constructor
      · exact h1
      · simp_all [activeSlots, qr_reader_stopped]
        omega

theorem inv_camera_exit_event (s : GuiState) (w : World) (h : Inv (s, w)) :
    Inv (camera_exit_event s w) := by
  obtain ⟨h1, h2⟩ := h
  unfold camera_exit_event
  cases hp : s.process with
  | none => exact ⟨h1, h2⟩
  | some pid =>
      constructor
      · simp [camera_stopped]
      · simp_all [activeSlots, camera_stopped]
        omega

theorem inv_close_application (s : GuiState) (w : World) (h : Inv (s, w)) :
    Inv (close_application s w) := by
  obtain ⟨pr, cr, qrp, mo, st, co, wd⟩ := s
  obtain ⟨h1, h2⟩ := h
  rcases pr with _ | pid <;> rcases cr <;> rcases qrp with _ | qid <;>
    rcases mo with _ | mid <;>
    simp_all [close_application, stop_camera, stop_qr_reader, stop_model_ai,
      Inv, activeSlots]

theorem inv_step (sw : GuiState × World) (e : Event) (h : Inv sw) :
    Inv (step sw e) := by
  obtain ⟨s, w⟩ := sw
  cases e with
  | startModelAi sp => exact inv_start_model_ai s w sp h
  | stopModelAi => exact inv_stop_model_ai s w h
  | startQr sp => exact inv_start_qr_reader s w sp h
  | stopQr => exact inv_stop_qr_reader s w h
  | startCamera sp => exact inv_start_camera s w sp h
  | stopCamera => exact inv_stop_camera s w h
  | toggleModelAi sp =>
      by_cases hm : s.model_ai_process.isSome <;>
        simp only [step, hm, if_true, if_false]
      · exact inv_stop_model_ai s w h
      · exact inv_start_model_ai s w sp h
  | toggleQr sp =>
      by_cases hq : s.qr_reader_process.isSome <;>
        simp only [step, hq, if_true, if_false]
      · exact inv_stop_qr_reader s w h
      · exact inv_start_qr_reader s w sp h
  | toggleCamera sp =>
      by_cases hc : s.camera_running <;>
        simp only [step, hc, if_true, if_false]
      · exact inv_stop_camera s w h
      · exact inv_start_camera s w sp h
  | modelExited lines code => exact inv_model_exit_event s w lines code h
  | qrExited lines code => exact inv_qr_exit_event s w lines code h
  | cameraExited => exact inv_camera_exit_event s w h
  | close => exact inv_close_application s w h

theorem inv_run (evs : List Event) : ∀ sw : GuiState × World,
    Inv sw → Inv (run sw evs) := by
  induction evs with
  | nil => intro sw h; exact h
  | cons e rest ih =>
      intro sw h
      exact ih (step sw e) (inv_step sw e h)

theorem inv_init : Inv init := by
  constructor
  · rfl
  · decide

/-- C1: in every state reachable through the supervisor's public operations at
most one of the camera, QR-reader and Model-AI slots holds a live handle; and
starting the Model AI task while the camera task is running performs the full
`stop_camera` on the camera child (SIGTERM delivered, handle and flag cleared)
as part of the same call that spawns the Model AI child. -/
theorem C1_single_active_slot :
    (∀ evs : List Event, activeSlots (run init evs).1 ≤ 1) ∧
    (∀ (s : GuiState) (w : World) (pid0 : Nat) (q : Proc) (b : Bool),
      s.camera_running = true → s.process = some pid0 →
      s.qr_reader_process = none → s.model_ai_process = none →
      w.findProc pid0 = some q →
      (start_model_ai s w (SpawnOutcome.ok b)).1.camera_running = false ∧
      (start_model_ai s w (SpawnOutcome.ok b)).1.process = none ∧
      (start_model_ai s w (SpawnOutcome.ok b)).2.1.findProc pid0 =
        some { q with termRequested := true,
                      alive := q.alive && !q.respondsToTerm } ∧
      (start_model_ai s w (SpawnOutcome.ok b)).1.model_ai_process =
        some w.nextPid ∧
      (start_model_ai s w (SpawnOutcome.ok b)).2.2 = StartResult.started) := by
  constructor
  · intro evs
    exact (inv_run evs init inv_init).2
  · intro s w pid0 q b hr hp hq hm hw
    obtain ⟨pr, cr, qrp, mo, st, co, wd⟩ := s
    dsimp only at hr hp hq hm
    subst hr hp hq hm
    have hterm : (w.terminate pid0).findProc pid0 =
        some { q with termRequested := true,
                      alive := q.alive && !q.respondsToTerm } := by
      rw [findProc_terminate]
      simp [hw]
    refine ⟨?_, ?_, ?_, ?_, ?_⟩
    · simp [start_model_ai, stop_camera]
    · simp [start_model_ai, stop_camera]
    · have hterm2 : List.find? (fun p => decide (p.pid = pid0))
          (w.terminate pid0).procs =
          some { q with termRequested := true,
                        alive := q.alive && !q.respondsToTerm } := by
        simpa [World.findProc] using hterm
      simp [start_model_ai, stop_camera, World.spawn, World.findProc,
        List.find?_append, hterm2]
    · simp [start_model_ai, stop_camera, World.spawn, World.terminate,
        World.updateProc]
    · simp [start_model_ai, stop_camera]

theorem C1_single_active_slot_witness :
    afterCameraStart.1.camera_running = true ∧
    (start_model_ai afterCameraStart.1 afterCameraStart.2
        (SpawnOutcome.ok true)).1.camera_running = false ∧
    (start_model_ai afterCameraStart.1 afterCameraStart.2
        (SpawnOutcome.ok true)).1.process = none ∧
    (start_model_ai afterCameraStart.1 afterCameraStart.2
        (SpawnOutcome.ok true)).2.1.findProc 0 =
      some { pid := 0, task := TaskId.camera, respondsToTerm := true,
             termRequested := true, killed := false, alive := false } ∧
    (start_model_ai afterCameraStart.1 afterCameraStart.2
        (SpawnOutcome.ok true)).1.model_ai_process = some 1 ∧
    (start_model_ai afterCameraStart.1 afterCameraStart.2
        (SpawnOutcome.ok true)).2.2 = StartResult.started := by
  have h := C1_single_active_slot.2 afterCameraStart.1 afterCameraStart.2 0
    { pid := 0, task := TaskId.camera, respondsToTerm := true,
      termRequested := false, killed := false, alive := true } true
    (by decide) (by decide) (by decide) (by decide) (by decide)
  exact ⟨by decide, h.1, h.2.1, by simpa using h.2.2.1,
    by simpa using h.2.2.2.1, h.2.2.2.2⟩

/-- C2 counterexample: the claim fails for the camera task.  Start a camera
child that ignores SIGTERM, then `stop_camera`: the slot is reported stopped
(handle released, status updated) while the child process is still alive —
`stop_camera` neither waits for termination nor escalates to a kill. -/
theorem C2_stop_escalation_counterexample :
    (run init [Event.startCamera (SpawnOutcome.ok false),
       Event.stopCamera]).1.process = none ∧
    (run init [Event.startCamera (SpawnOutcome.ok false),
       Event.stopCamera]).1.statusText = "Status: Stopped" ∧
    (run init [Event.startCamera (SpawnOutcome.ok false),
       Event.stopCamera]).2.isAlive 0 = true := by
  decide

/-- C2 (amended): for the Model-AI and QR tasks, `stop` on a non-idle slot
requests graceful termination, waits up to the 2-second timeout, escalates to
a forced kill on timeout and releases the handle, so the child is no longer
alive afterwards.  For the camera task, `stop_camera` releases the handle and
clears the running flag but only delivers SIGTERM: the child stays alive
exactly when it ignores SIGTERM. -/
theorem C2_stop_semantics :
    (∀ (s : GuiState) (w : World) (pid : Nat),
      s.model_ai_process = some pid →
      (stop_model_ai s w).1.model_ai_process = none ∧
      (stop_model_ai s w).2.isAlive pid = false) ∧
    (∀ (s : GuiState) (w : World) (pid : Nat),
      s.qr_reader_process = some pid →
      (stop_qr_reader s w).1.qr_reader_process = none ∧
      (stop_qr_reader s w).2.isAlive pid = false) ∧
    (∀ (s : GuiState) (w : World) (pid : Nat),
      s.process = some pid → s.camera_running = true →
      (stop_camera s w).1.process = none ∧
      (stop_camera s w).1.camera_running = false ∧
      (stop_camera s w).2.findProc pid =
        (w.findProc pid).map (fun p =>
          { p with termRequested := true,
                   alive := p.alive && !p.respondsToTerm })) := by
  refine ⟨fun s w pid h => stop_model_ai_dead s w pid h,
          fun s w pid h => stop_qr_reader_dead s w pid h,
          fun s w pid hp hr => stop_camera_term_only s w pid hp hr⟩

theorem C2_stop_semantics_witness :
    ((stop_model_ai afterModelStart.1 afterModelStart.2).1.model_ai_process =
        none ∧
     (stop_model_ai afterModelStart.1 afterModelStart.2).2.isAlive 0 =
        false) ∧
    ((stop_qr_reader afterQrStart.1 afterQrStart.2).1.qr_reader_process =
        none ∧
     (stop_qr_reader afterQrStart.1 afterQrStart.2).2.isAlive 0 = false) ∧
    ((stop_camera afterCameraStartStubborn.1
        afterCameraStartStubborn.2).1.process = none ∧
     (stop_camera afterCameraStartStubborn.1
        afterCameraStartStubborn.2).1.camera_running = false ∧
     (stop_camera afterCameraStartStubborn.1
        afterCameraStartStubborn.2).2.findProc 0 =
       (afterCameraStartStubborn.2.findProc 0).map (fun p =>
         { p with termRequested := true,
                  alive := p.alive && !p.respondsToTerm })) :=
  ⟨C2_stop_semantics.1 afterModelStart.1 afterModelStart.2 0 (by decide),
   C2_stop_semantics.2.1 afterQrStart.1 afterQrStart.2 0 (by decide),
   C2_stop_semantics.2.2 afterCameraStartStubborn.1 afterCameraStartStubborn.2
     0 (by decide) (by decide)⟩

/-- C3: for every task, a second `start` without an intervening `stop` takes
the already-running early-return branch and changes nothing; concretely, two
successive starts from the initial state leave exactly one live child process
for that task. -/
theorem C3_double_start :
    (∀ (s : GuiState) (w : World) (sp : SpawnOutcome),
      s.model_ai_process.isSome = true →
      start_model_ai s w sp = (s, w, StartResult.alreadyRunning)) ∧
    (∀ (s : GuiState) (w : World) (sp : SpawnOutcome),
      s.qr_reader_process.isSome = true →
      start_qr_reader s w sp = (s, w, StartResult.alreadyRunning)) ∧
    (∀ (s : GuiState) (w : World) (sp : SpawnOutcome),
      s.camera_running = true →
      start_camera s w sp = (s, w, StartResult.alreadyRunning)) ∧
    (∀ b1 b2 : Bool,
      (start_model_ai (run init [Event.startModelAi (SpawnOutcome.ok b1)]).1
          (run init [Event.startModelAi (SpawnOutcome.ok b1)]).2
          (SpawnOutcome.ok b2)).2.2 = StartResult.alreadyRunning ∧
      (run init [Event.startModelAi (SpawnOutcome.ok b1),
         Event.startModelAi (SpawnOutcome.ok b2)]).2.countAlive TaskId.model =
        1 ∧
      (start_qr_reader (run init [Event.startQr (SpawnOutcome.ok b1)]).1
          (run init [Event.startQr (SpawnOutcome.ok b1)]).2
          (SpawnOutcome.ok b2)).2.2 = StartResult.alreadyRunning ∧
      (run init [Event.startQr (SpawnOutcome.ok b1),
         Event.startQr (SpawnOutcome.ok b2)]).2.countAlive TaskId.qr = 1 ∧
      (start_camera (run init [Event.startCamera (SpawnOutcome.ok b1)]).1
          (run init [Event.startCamera (SpawnOutcome.ok b1)]).2
          (SpawnOutcome.ok b2)).2.2 = StartResult.alreadyRunning ∧
      (run init [Event.startCamera (SpawnOutcome.ok b1),
         Event.startCamera (SpawnOutcome.ok b2)]).2.countAlive TaskId.camera =
        1) := by
  refine ⟨?_, ?_, ?_, ?_⟩
  · intro s w sp h
    simp [start_model_ai, h]
  · intro s w sp h
    simp [start_qr_reader, h]
  · intro s w sp h
    simp [start_camera, h]
  · intro b1 b2
    cases b1 <;> cases b2 <;> decide

theorem C3_double_start_witness :
    start_model_ai afterModelStart.1 afterModelStart.2 (SpawnOutcome.ok true) =
      (afterModelStart.1, afterModelStart.2, StartResult.alreadyRunning) ∧
    start_qr_reader afterQrStart.1 afterQrStart.2 (SpawnOutcome.ok true) =
      (afterQrStart.1, afterQrStart.2, StartResult.alreadyRunning) ∧
    start_camera afterCameraStart.1 afterCameraStart.2 (SpawnOutcome.ok true) =
      (afterCameraStart.1, afterCameraStart.2, StartResult.alreadyRunning) :=
  ⟨C3_double_start.1 afterModelStart.1 afterModelStart.2
      (SpawnOutcome.ok true) (by decide),
   C3_double_start.2.1 afterQrStart.1 afterQrStart.2
      (SpawnOutcome.ok true) (by decide),
   C3_double_start.2.2.1 afterCameraStart.1 afterCameraStart.2
      (SpawnOutcome.ok true) (by decide)⟩

/-- C4: for every task, when the spawn raises an OS error the start operation
reports the launch failure (with the underlying error text) on the display
sink, the slot stays idle, and a subsequent retry can start the task. -/
theorem C4_launch_failure :
    (∀ (s : GuiState) (w : World) (msg : String) (b : Bool),
      s.model_ai_process = none → s.camera_running = false →
      s.process = none → s.qr_reader_process = none →
      (start_model_ai s w (SpawnOutcome.fail msg)).2.2 =
        StartResult.launchFailed ∧
      (start_model_ai s w (SpawnOutcome.fail msg)).1.model_ai_process = none ∧
      (start_model_ai s w (SpawnOutcome.fail msg)).1.console =
        ["Starting Model AI Vision application...",
         "Error starting Model AI Vision: " ++ msg] ∧
      (start_model_ai s w (SpawnOutcome.fail msg)).1.statusText =
        "Status: Error - " ++ msg ∧
      (start_model_ai (start_model_ai s w (SpawnOutcome.fail msg)).1
          (start_model_ai s w (SpawnOutcome.fail msg)).2.1
          (SpawnOutcome.ok b)).2.2 = StartResult.started ∧
      (start_model_ai (start_model_ai s w (SpawnOutcome.fail msg)).1
          (start_model_ai s w (SpawnOutcome.fail msg)).2.1
          (SpawnOutcome.ok b)).1.model_ai_process = some w.nextPid) ∧
    (∀ (s : GuiState) (w : World) (msg : String) (b : Bool),
      s.model_ai_process = none → s.camera_running = false →
      s.process = none → s.qr_reader_process = none →
      (start_qr_reader s w (SpawnOutcome.fail msg)).2.2 =
        StartResult.launchFailed ∧
      (start_qr_reader s w (SpawnOutcome.fail msg)).1.qr_reader_process =
        none ∧
      (start_qr_reader s w (SpawnOutcome.fail msg)).1.console =
        ["Starting QR Reader application...",
         "Error starting QR Reader: " ++ msg] ∧
      (start_qr_reader s w (SpawnOutcome.fail msg)).1.statusText =
        "Status: Error - " ++ msg ∧
      (start_qr_reader (start_qr_reader s w (SpawnOutcome.fail msg)).1
          (start_qr_reader s w (SpawnOutcome.fail msg)).2.1
          (SpawnOutcome.ok b)).2.2 = StartResult.started ∧
      (start_qr_reader (start_qr_reader s w (SpawnOutcome.fail msg)).1
          (start_qr_reader s w (SpawnOutcome.fail msg)).2.1
          (SpawnOutcome.ok b)).1.qr_reader_process = some w.nextPid) ∧
    (∀ (s : GuiState) (w : World) (msg : String) (b : Bool),
      s.model_ai_process = none → s.camera_running = false →
      s.process = none → s.qr_reader_process = none →
      (start_camera s w (SpawnOutcome.fail msg)).2.2 =
        StartResult.launchFailed ∧
      (start_camera s w (SpawnOutcome.fail msg)).1.camera_running = false ∧
      (start_camera s w (SpawnOutcome.fail msg)).1.process = none ∧
      (start_camera s w (SpawnOutcome.fail msg)).1.console =
        ["Starting AI camera with object detection...",
         "Command: " ++ String.intercalate " " cameraCmd,
         "Error running camera: " ++ msg] ∧
      (start_camera s w (SpawnOutcome.fail msg)).1.statusText =
        "Status: Ready" ∧
      (start_camera (start_camera s w (SpawnOutcome.fail msg)).1
          (start_camera s w (SpawnOutcome.fail msg)).2.1
          (SpawnOutcome.ok b)).2.2 = StartResult.started ∧
      (start_camera (start_camera s w (SpawnOutcome.fail msg)).1
          (start_camera s w (SpawnOutcome.fail msg)).2.1
          (SpawnOutcome.ok b)).1.process = some w.nextPid) := by
  refine ⟨?_, ?_, ?_⟩ <;>
    · intro s w msg b hm hc hp hq
      obtain ⟨pr, cr, qrp, mo, st, co, wd⟩ := s
      dsimp only at hm hc hp hq
      subst hm hc hp hq
      refine ⟨?_, ?_, ?_, ?_, ?_, ?_⟩ <;>
        simp [start_model_ai, start_qr_reader, start_camera, stop_camera,
          stop_qr_reader, stop_model_ai, World.spawn]

theorem C4_launch_failure_witness :
    ((start_model_ai initGui initWorld
        (SpawnOutcome.fail "No such file or directory")).2.2 =
      StartResult.launchFailed ∧
     (start_model_ai initGui initWorld
        (SpawnOutcome.fail "No such file or directory")).1.model_ai_process =
      none) ∧
    ((start_camera initGui initWorld
        (SpawnOutcome.fail "No such file or directory")).2.2 =
      StartResult.launchFailed ∧
     (start_camera initGui initWorld
        (SpawnOutcome.fail "No such file or directory")).1.process = none) := by
  have h1 := C4_launch_failure.1 initGui initWorld
    "No such file or directory" true rfl rfl rfl rfl
  have h3 := C4_launch_failure.2.2 initGui initWorld
    "No such file or directory" true rfl rfl rfl rfl
  exact ⟨⟨h1.1, h1.2.1⟩, ⟨h3.1, h3.2.2.1⟩⟩

/-- C5 counterexample: after the child exits with a nonzero code the drain
logic still transitions the slot to `Idle` (handle `None`), not to a distinct
`Failed` state — the code has no `Failed` lifecycle state. -/
theorem C5_drain_failed_counterexample :
    modelSlotLifecycle (read_model_ai_output afterModelStart.1 ["out"] 1) =
      Lifecycle.idle ∧
    Lifecycle.idle ≠ Lifecycle.failed := by
  decide

/-- C5 (amended): the drain consumes the child output line by line,
forwarding every line stripped and tagged with the task name to the sink; at
end-of-stream it reads the exit code, notifies the sink of the outcome, and
transitions the slot `Running → Idle` regardless of the exit code (the exit
code only appears in the notification text). -/
theorem C5_drain_spec (s : GuiState) (lines : List String) (code : Int)
    (h : s.model_ai_process.isSome = true) :
    read_model_ai_output s lines code =
      { s with
        model_ai_process := none,
        statusText := "Status: Model AI Vision Exited (code: " ++
          toString code ++ ")",
        console := s.console ++
          lines.map (fun l => "Model AI: " ++ pyStrip l) ++
          ["Model AI Vision process ended with code: " ++ toString code] } := by
  unfold read_model_ai_output
  rw [drain_loop_eq lines s h]
  cases hm : s.model_ai_process with
  | none => rw [hm] at h; simp at h
  | some mid => simp [hm, model_ai_stopped, rcToString]

theorem C5_drain_spec_witness :
    read_model_ai_output afterModelStart.1 ["out\n"] 0 =
      { afterModelStart.1 with
        model_ai_process := none,
        statusText := "Status: Model AI Vision Exited (code: 0)",
        console := afterModelStart.1.console ++
          ["Model AI: out", "Model AI Vision process ended with code: 0"] } := by
  have h := C5_drain_spec afterModelStart.1 ["out\n"] 0 (by decide)
  rw [h]
  decide

/-- C6 counterexample: `stop_model_ai` completes — the handle is cleared and
the status reports the task stopped — while the drain thread is still inside
its read loop, having neither observed the process exit nor been cancelled;
the stop does not wait for (join) the drain thread. -/
theorem C6_stop_drain_counterexample :
    (crun (drainInit ["x"] 0) [CAction.stopModelAi]).model_ai_process =
      none ∧
    (crun (drainInit ["x"] 0) [CAction.stopModelAi]).statusText =
      "Status: Model AI Vision Stopped" ∧
    (crun (drainInit ["x"] 0) [CAction.stopModelAi]).drainActive = true := by
  decide

/-- C6 (amended): `stop_model_ai` does not synchronize with the drain thread;
it clears the handle immediately.  What the code does guarantee is that once
the handle is cleared, the drain loop exits at its next iteration without
forwarding further output and without scheduling the exit callback. -/
theorem C6_drain_after_stop (c : DrainState)
    (h1 : c.model_ai_process = none) (h2 : c.drainActive = true) :
    cstep c CAction.drainStep = { c with drainActive := false } := by
  unfold cstep
  rw [h2, h1]
  simp

theorem C6_drain_after_stop_witness :
    cstep (crun (drainInit ["x"] 0) [CAction.stopModelAi])
        CAction.drainStep =
      { crun (drainInit ["x"] 0) [CAction.stopModelAi] with
        drainActive := false } :=
  C6_drain_after_stop (crun (drainInit ["x"] 0) [CAction.stopModelAi])
    (by decide) (by decide)

theorem stop_camera_fields (s : GuiState) (w : World) :
    (stop_camera s w).1.qr_reader_process = s.qr_reader_process ∧
    (stop_camera s w).1.model_ai_process = s.model_ai_process := by
  unfold stop_camera
  cases hp : s.process with
  | none => simp
  | some pid2 => by_cases hc : s.camera_running <;> simp [hc]

theorem stop_qr_reader_fields (s : GuiState) (w : World) :
    (stop_qr_reader s w).1.process = s.process ∧
    (stop_qr_reader s w).1.camera_running = s.camera_running ∧
    (stop_qr_reader s w).1.model_ai_process = s.model_ai_process := by
  unfold stop_qr_reader
  cases hq : s.qr_reader_process with
  | none => simp
  | some qid => simp

theorem stop_model_ai_fields (s : GuiState) (w : World) :
    (stop_model_ai s w).1.process = s.process ∧
    (stop_model_ai s w).1.camera_running = s.camera_running ∧
    (stop_model_ai s w).1.qr_reader_process = s.qr_reader_process := by
  unfold stop_model_ai
  cases hm : s.model_ai_process with
  | none => simp
  | some mid => simp

theorem stop_model_ai_preserves_dead (s : GuiState) (w : World) (pid : Nat)
    (h : w.isAlive pid = false) :
    (stop_model_ai s w).2.isAlive pid = false := by
  unfold stop_model_ai
  cases hm : s.model_ai_process with
  | none => exact h
  | some mid =>
      by_cases ha : (w.terminate mid).isAlive mid
      · simp only [ha, if_true]
        exact isAlive_kill_dead _ pid mid (isAlive_terminate_dead w pid mid h)
      · simp only [ha, if_false]
        exact isAlive_terminate_dead w pid mid h

theorem termReq_terminate_self (w : World) (pid : Nat) :
    ∀ p ∈ (w.terminate pid).procs, p.pid = pid → p.termRequested = true := by
  intro p hp hpid
  unfold World.terminate World.updateProc at hp
  simp only [List.mem_map] at hp
  obtain ⟨q, hq, rfl⟩ := hp
  by_cases hqp : q.pid = pid
  · simp [hqp]
  · rw [if_neg hqp] at hpid ⊢
    exact absurd hpid hqp

theorem termReq_preserved_updateProc (w : World) (pid pid2 : Nat)
    (f : Proc → Proc) (hpid : ∀ p, (f p).pid = p.pid)
    (hf : ∀ p, p.termRequested = true → (f p).termRequested = true)
    (h : ∀ p ∈ w.procs, p.pid = pid → p.termRequested = true) :
    ∀ p ∈ (w.updateProc pid2 f).procs, p.pid = pid →
      p.termRequested = true := by
  intro p hp hpp
  unfold World.updateProc at hp
  simp only [List.mem_map] at hp
  obtain ⟨q, hq, rfl⟩ := hp
  by_cases hqp : q.pid = pid2
  · rw [if_pos hqp] at hpp ⊢
    exact hf q (h q hq ((hpid q) ▸ hpp))
  · rw [if_neg hqp] at hpp ⊢
    exact h q hq hpp

theorem termReq_preserved_terminate (w : World) (pid pid2 : Nat)
    (h : ∀ p ∈ w.procs, p.pid = pid → p.termRequested = true) :
    ∀ p ∈ (w.terminate pid2).procs, p.pid = pid → p.termRequested = true := by
  unfold World.terminate
  exact termReq_preserved_updateProc w pid pid2 _ (fun p => rfl)
    (fun p _ => rfl) h

theorem termReq_preserved_kill (w : World) (pid pid2 : Nat)
    (h : ∀ p ∈ w.procs, p.pid = pid → p.termRequested = true) :
    ∀ p ∈ (w.kill pid2).procs, p.pid = pid → p.termRequested = true := by
  unfold World.kill
  exact termReq_preserved_updateProc w pid pid2 _ (fun p => rfl)
    (fun p hp => hp) h

theorem stop_qr_reader_preserves_termReq (s : GuiState) (w : World) (pid : Nat)
    (h : ∀ p ∈ w.procs, p.pid = pid → p.termRequested = true) :
    ∀ p ∈ (stop_qr_reader s w).2.procs, p.pid = pid →
      p.termRequested = true := by
  unfold stop_qr_reader
  cases hq : s.qr_reader_process with
  | none => exact h
  | some qid =>
      by_cases ha : (w.terminate qid).isAlive qid
      · simp only [ha, if_true]
        exact termReq_preserved_kill _ pid qid
          (termReq_preserved_terminate w pid qid h)
      · simp only [ha, if_false]
        exact termReq_preserved_terminate w pid qid h

theorem stop_model_ai_preserves_termReq (s : GuiState) (w : World) (pid : Nat)
    (h : ∀ p ∈ w.procs, p.pid = pid → p.termRequested = true) :
    ∀ p ∈ (stop_model_ai s w).2.procs, p.pid = pid →
      p.termRequested = true := by
  unfold stop_model_ai
  cases hm : s.model_ai_process with
  | none => exact h
  | some mid =>
      by_cases ha : (w.terminate mid).isAlive mid
      · simp only [ha, if_true]
        exact termReq_preserved_kill _ pid mid
          (termReq_preserved_terminate w pid mid h)
      · simp only [ha, if_false]
        exact termReq_preserved_terminate w pid mid h


theorem stop_camera_world (s : GuiState) (w : World) (pid : Nat)
    (hp : s.process = some pid) (hr : s.camera_running = true) :
    (stop_camera s w).2 = w.terminate pid := by
  unfold stop_camera
  rw [hp]
  simp [hr]

/-- C8 counterexample: the claim fails when the camera child ignores SIGTERM.
After `close_application` the window is destroyed while the camera process the
supervisor launched is still alive — `stop_camera` performs no wait or kill. -/
theorem C8_close_counterexample :
    (run init [Event.startCamera (SpawnOutcome.ok false),
       Event.close]).1.windowDestroyed = true ∧
    (run init [Event.startCamera (SpawnOutcome.ok false),
       Event.close]).2.isAlive 0 = true := by
  decide

/-- C8 (amended): `close_application` runs the stop routine of every active
slot before destroying the window: all handles are released, an active Model
AI or QR child is no longer alive afterwards, and an active camera child has
had termination requested (SIGTERM) — but, lacking wait and kill escalation,
a camera child that ignores SIGTERM may outlive the window. -/
theorem C8_close_semantics :
    (∀ (s : GuiState) (w : World),
      (close_application s w).1.windowDestroyed = true) ∧
    (∀ (s : GuiState) (w : World),
      s.camera_running = s.process.isSome →
      (close_application s w).1.process = none ∧
      (close_application s w).1.qr_reader_process = none ∧
      (close_application s w).1.model_ai_process = none) ∧
    (∀ (s : GuiState) (w : World) (pid : Nat),
      s.model_ai_process = some pid →
      (close_application s w).2.isAlive pid = false) ∧
    (∀ (s : GuiState) (w : World) (pid : Nat),
      s.qr_reader_process = some pid →
      (close_application s w).2.isAlive pid = false) ∧
    (∀ (s : GuiState) (w : World) (pid : Nat),
      s.process = some pid → s.camera_running = true →
      ∀ p ∈ (close_application s w).2.procs, p.pid = pid →
        p.termRequested = true) := by
  refine ⟨?_, ?_, ?_, ?_, ?_⟩
  · intro s w
    simp [close_application]
  · intro s w hsync
    obtain ⟨pr, cr, qrp, mo, st, co, wd⟩ := s
    dsimp only at hsync
    rcases pr with _ | pid <;> rcases cr <;> rcases qrp with _ | qid <;>
      rcases mo with _ | mid <;>
      simp_all [close_application, stop_camera, stop_qr_reader, stop_model_ai]
  · intro s w pid hm
    unfold close_application
    dsimp only
    set sw1 := if s.camera_running then stop_camera s w else (s, w) with hsw1
    set sw2 := if sw1.1.qr_reader_process.isSome then
        stop_qr_reader sw1.1 sw1.2 else sw1 with hsw2
    have h1 : sw1.1.model_ai_process = some pid := by
      rw [hsw1]
      by_cases hc : s.camera_running
      · simp only [hc, if_true]
        rw [(stop_camera_fields s w).2]
        exact hm
      · simp only [hc, if_false]
        exact hm
    have h2 : sw2.1.model_ai_process = some pid := by
      rw [hsw2]
      by_cases hq : sw1.1.qr_reader_process.isSome
      · simp only [hq, if_true]
        rw [(stop_qr_reader_fields sw1.1 sw1.2).2.2]
        exact h1
      · simp only [hq, if_false]
        exact h1
    have h3 : sw2.1.model_ai_process.isSome = true := by rw [h2]; rfl
    simp only [h3, if_true]
    exact (stop_model_ai_dead sw2.1 sw2.2 pid h2).2
  · intro s w pid hq
    unfold close_application
    dsimp only
    set sw1 := if s.camera_running then stop_camera s w else (s, w) with hsw1
    have h1 : sw1.1.qr_reader_process = some pid := by
      rw [hsw1]
      by_cases hc : s.camera_running
      · simp only [hc, if_true]
        rw [(stop_camera_fields s w).1]
        exact hq
      · simp only [hc, if_false]
        exact hq
    have h1s : sw1.1.qr_reader_process.isSome = true := by rw [h1]; rfl
    simp only [h1s, if_true]
    have hdead := (stop_qr_reader_dead sw1.1 sw1.2 pid h1).2
    by_cases hm : (stop_qr_reader sw1.1 sw1.2).1.model_ai_process.isSome
    · simp only [hm, if_true]
      exact stop_model_ai_preserves_dead _ _ pid hdead
    · simp only [hm, if_false]
      exact hdead
  · intro s w pid hp hr
    unfold close_application
    dsimp only
    set sw1 := if s.camera_running then stop_camera s w else (s, w) with hsw1
    have h1 : sw1 = stop_camera s w := by rw [hsw1, if_pos hr]
    have hterm : ∀ p ∈ sw1.2.procs, p.pid = pid → p.termRequested = true := by
      rw [h1, stop_camera_world s w pid hp hr]
      exact termReq_terminate_self w pid
    have h2 : ∀ p ∈ (if sw1.1.qr_reader_process.isSome then
        stop_qr_reader sw1.1 sw1.2 else sw1).2.procs, p.pid = pid →
        p.termRequested = true := by
      by_cases hq : sw1.1.qr_reader_process.isSome
      · simp only [hq, if_true]
        exact stop_qr_reader_preserves_termReq sw1.1 sw1.2 pid hterm
      · simp only [hq, if_false]
        exact hterm
    set sw2 := if sw1.1.qr_reader_process.isSome then
        stop_qr_reader sw1.1 sw1.2 else sw1 with hsw2
    by_cases hm : sw2.1.model_ai_process.isSome
    · simp only [hm, if_true]
      exact stop_model_ai_preserves_termReq sw2.1 sw2.2 pid h2
    · simp only [hm, if_false]
      exact h2


theorem C8_close_semantics_witness :
    ((close_application afterModelStart.1 afterModelStart.2).1.process =
        none ∧
     (close_application afterModelStart.1
        afterModelStart.2).1.qr_reader_process = none ∧
     (close_application afterModelStart.1
        afterModelStart.2).1.model_ai_process = none) ∧
    (close_application afterModelStart.1 afterModelStart.2).2.isAlive 0 =
      false ∧
    (close_application afterQrStart.1 afterQrStart.2).2.isAlive 0 = false ∧
    (close_application afterCameraStart.1
        afterCameraStart.2).2.procs.all
      (fun p => !(p.pid == 0) || p.termRequested) = true := by
  have h2 := C8_close_semantics.2.1 afterModelStart.1 afterModelStart.2
    (by decide)
  have h3 := C8_close_semantics.2.2.1 afterModelStart.1 afterModelStart.2 0
    (by decide)
  have h4 := C8_close_semantics.2.2.2.1 afterQrStart.1 afterQrStart.2 0
    (by decide)
  have h5 := C8_close_semantics.2.2.2.2 afterCameraStart.1 afterCameraStart.2
    0 (by decide) (by decide)
  refine ⟨h2, h3, h4, ?_⟩
  rw [List.all_eq_true]
  intro p hp
  by_cases hb : p.pid = 0
  · simp [hb, h5 p hp hb]
  · simp [hb]

/-- C7 counterexample: the user-supplied framerate flag of `QRReader.py` is
not passed through unmodified — `main` clamps it into the range 1..10, a
validation beyond type coercion (framerate 30 becomes 10). -/
theorem C7_passthrough_counterexample :
    qr_main_framerate 30 = 10 ∧ (10 : Int) ≠ 30 := by
  decide

/-- C7 (amended): the launch-command constructions pass the configured
width, height, framerate and model-path arguments through as plain decimal
renderings or verbatim strings at fixed argv positions (the duration is
rendered with an `s` suffix); however `QRReader.main` clamps the framerate
argument into 1..10 before use, leaving it unchanged only when it already
lies in that range. -/
theorem C7_command_passthrough :
    (∀ (d w h f : Int) (mp : String),
      (pose_detection_cmd d w h f mp).get? 2 = some (toString d ++ "s") ∧
      (pose_detection_cmd d w h f mp).get? 4 = some mp ∧
      (pose_detection_cmd d w h f mp).get? 6 = some (toString w) ∧
      (pose_detection_cmd d w h f mp).get? 8 = some (toString h) ∧
      (pose_detection_cmd d w h f mp).get? 10 = some (toString f)) ∧
    (∀ (w h : Int) (tf : String),
      (qr_capture_cmd w h tf).get? 2 = some (toString w) ∧
      (qr_capture_cmd w h tf).get? 4 = some (toString h) ∧
      (qr_capture_cmd w h tf).get? 6 = some tf) ∧
    (∀ f : Int, 1 ≤ f → f ≤ 10 → qr_main_framerate f = f) ∧
    (∀ f : Int, qr_main_framerate f ≠ f → f < 1 ∨ 10 < f) := by
  refine ⟨?_, ?_, ?_, ?_⟩
  · intro d w h f mp
    exact ⟨rfl, rfl, rfl, rfl, rfl⟩
  · intro w h tf
    exact ⟨rfl, rfl, rfl⟩
  · intro f h1 h10
    unfold qr_main_framerate
    omega
  · intro f hne
    unfold qr_main_framerate at hne
    omega

theorem C7_command_passthrough_witness :
    qr_main_framerate 5 = 5 ∧ ((30:Int) < 1 ∨ (10:Int) < 30) :=
  ⟨C7_command_passthrough.2.2.1 5 (by decide) (by decide),
   C7_command_passthrough.2.2.2 30 (by decide)⟩

theorem pyInt_mono {a b : ℚ} (h : a ≤ b) : pyInt a ≤ pyInt b := by
  unfold pyInt
  by_cases ha : (0:ℚ) ≤ a
  · have hb : (0:ℚ) ≤ b := le_trans ha h
    simp only [ha, hb, if_true]
    exact Int.floor_le_floor h
  · by_cases hb : (0:ℚ) ≤ b
    · simp only [ha, hb, if_true, if_false]
      have h1 : ⌈a⌉ ≤ 0 := Int.ceil_le.mpr (by exact_mod_cast le_of_not_le ha)
      have h2 : (0:ℤ) ≤ ⌊b⌋ := Int.floor_nonneg.mpr hb
      omega
    · simp only [ha, hb, if_false]
      exact Int.ceil_le_ceil h

theorem pyInt_intCast (n : Int) : pyInt (n : ℚ) = n := by
  unfold pyInt
  by_cases h : (0:ℚ) ≤ (n:ℚ)
  · simp [h, Int.floor_intCast]
  · simp [h, Int.ceil_intCast]

theorem one_le_pyInt_max (v : ℚ) : 1 ≤ pyInt (max 1 v) := by
  have h := pyInt_mono (le_max_left (1:ℚ) v)
  have h1 : pyInt (1:ℚ) = 1 := by
    have := pyInt_intCast 1
    simpa using this
  rw [h1] at h
  exact h

theorem pyInt_min_le (z : Int) (v : ℚ) : pyInt (min (z:ℚ) v) ≤ z := by
  have h := pyInt_mono (min_le_left (z:ℚ) v)
  rwa [pyInt_intCast] at h

/-- C9: every detection returned by `_process_object_detection` has a
confidence score of at least 0.5 and a bounding box clamped into the image:
1 ≤ xmin, 1 ≤ ymin, ymax ≤ img_height, xmax ≤ img_width; rows below the
threshold contribute nothing to the result list. -/
theorem C9_detection_bounds :
    ∀ (labels : List String) (img_width img_height : Int)
      (rows : List DetRow)
      (res : List (String × ℚ × (Int × Int × Int × Int))),
      process_object_detection labels img_width img_height rows =
        Except.ok res →
      ∀ (label : String) (score : ℚ) (x0 y0 x1 y1 : Int),
        (label, score, (x0, y0, x1, y1)) ∈ res →
        1/2 ≤ score ∧ 1 ≤ x0 ∧ 1 ≤ y0 ∧ y1 ≤ img_height ∧
        x1 ≤ img_width := by
  intro labels img_width img_height rows
  induction rows with
  | nil =>
      intro res hres label score x0 y0 x1 y1 hmem
      simp [process_object_detection] at hres
      subst hres
      simp at hmem
  | cons row rest ih =>
      intro res hres label score x0 y0 x1 y1 hmem
      rw [process_object_detection] at hres
      cases hd : processDetRow labels img_width img_height row with
      | error e => rw [hd] at hres; exact absurd hres (by simp)
      | ok od =>
          rw [hd] at hres
          cases od with
          | none => exact ih res hres label score x0 y0 x1 y1 hmem
          | some d =>
              cases hr : process_object_detection labels img_width img_height
                  rest with
              | error e => rw [hr] at hres; exact absurd hres (by simp)
              | ok ds =>
                  rw [hr] at hres
                  have hres2 : d :: ds = res := by
                    simpa using hres
                  subst hres2
                  rcases List.mem_cons.mp hmem with hhead | htail
                  · -- head: extract the facts from hd
                    unfold processDetRow at hd
                    by_cases hsc : row.v4 < 1/2
                    · rw [if_pos hsc] at hd
                      simp at hd
                    · rw [if_neg hsc] at hd
                      dsimp only at hd
                      cases hlab : (if pyInt row.v5 < (labels.length : Int)
                          then pyListGet labels (pyInt row.v5)
                          else Except.ok ("Class " ++ toString (pyInt row.v5)))
                          with
                      | error e => rw [hlab] at hd; simp at hd
                      | ok lab =>
                          rw [hlab] at hd
                          dsimp only at hd
                          have hdd : (lab, row.v4,
                              pyInt (max 1 (row.v1 * img_width)),
                              pyInt (max 1 (row.v0 * img_height)),
                              pyInt (min (img_width : ℚ) (row.v3 * img_width)),
                              pyInt (min (img_height : ℚ)
                                (row.v2 * img_height))) = d := by
                            simpa using hd
                          rw [← hdd] at hhead
                          simp only [Prod.mk.injEq] at hhead
                          obtain ⟨he1, he2, he3, he4, he5, he6⟩ := hhead
                          refine ⟨?_, ?_, ?_, ?_, ?_⟩
                          · rw [he2]
                            exact le_of_not_lt hsc
                          · rw [he3]
                            exact one_le_pyInt_max _
                          · rw [he4]
                            exact one_le_pyInt_max _
                          · rw [he6]
                            exact pyInt_min_le _ _
                          · rw [he5]
                            exact pyInt_min_le _ _
                  · exact ih ds hr label score x0 y0 x1 y1 htail

theorem C9_detection_bounds_witness :
    (1:ℚ)/2 ≤ 1 ∧ (1:Int) ≤ 300 ∧ (1:Int) ≤ 160 ∧ (40:Int) ≤ 80 ∧
      (50:Int) ≤ 100 := by
  have hok : process_object_detection ["person"] 100 80
      [⟨2, 3, 1/2, 1/2, 1, 0⟩] =
      Except.ok [("person", 1, (300, 160, 50, 40))] := by
    norm_num [process_object_detection, processDetRow, pyListGet, pyInt,
      max_def, min_def]
  have hmem : ("person", (1:ℚ),
      ((300:Int), (160:Int), (50:Int), (40:Int))) ∈
      [("person", (1:ℚ), ((300:Int), (160:Int), (50:Int), (40:Int)))] := by
    simp
  exact C9_detection_bounds ["person"] 100 80 _ _ hok "person" 1 300 160 50 40 hmem

/-- C10: `create_label_file` never overwrites an existing label file — when
the `.txt` path derived from the model path already exists the file system is
returned unchanged; otherwise for label type `coco` or `imagenet`
(case-insensitively) it writes exactly the corresponding label list, one
label per line, to that path, and for any other label type it creates no
file. -/
theorem C10_create_label_file :
    ∀ (fs : FS) (model_path label_type : String),
      (fsExists fs ((splitext model_path).1 ++ ".txt") = true →
        create_label_file fs model_path label_type =
          (fs, ["Label file already exists: " ++
            ((splitext model_path).1 ++ ".txt")])) ∧
      (fsExists fs ((splitext model_path).1 ++ ".txt") = false →
        pyLower label_type = "coco" →
        create_label_file fs model_path label_type =
          (((splitext model_path).1 ++ ".txt",
            renderLabels COCO_LABELS) :: fs,
           ["Created label file: " ++ ((splitext model_path).1 ++ ".txt") ++
            " with " ++ toString COCO_LABELS.length ++ " labels"])) ∧
      (fsExists fs ((splitext model_path).1 ++ ".txt") = false →
        pyLower label_type = "imagenet" →
        create_label_file fs model_path label_type =
          (((splitext model_path).1 ++ ".txt",
            renderLabels IMAGENET_LABELS) :: fs,
           ["Created label file: " ++ ((splitext model_path).1 ++ ".txt") ++
            " with " ++ toString IMAGENET_LABELS.length ++ " labels"])) ∧
      (fsExists fs ((splitext model_path).1 ++ ".txt") = false →
        pyLower label_type ≠ "coco" → pyLower label_type ≠ "imagenet" →
        create_label_file fs model_path label_type =
          (fs, ["Unknown label type: " ++ label_type])) := by
  intro fs model_path label_type
  refine ⟨?_, ?_, ?_, ?_⟩
  · intro hex
    simp [create_label_file, hex]
  · intro hex hco
    simp [create_label_file, hex, hco]
  · intro hex him
    simp [create_label_file, hex, him]
  · intro hex hco him
    simp [create_label_file, hex, hco, him]

set_option maxRecDepth 4000 in
theorem C10_create_label_file_witness :
    create_label_file [("/m/model.txt", "old")] "/m/model.tflite" "coco" =
      ([("/m/model.txt", "old")],
       ["Label file already exists: /m/model.txt"]) ∧
    create_label_file [] "/m/model.tflite" "CoCo" =
      ([("/m/model.txt", renderLabels COCO_LABELS)],
       ["Created label file: /m/model.txt with 80 labels"]) ∧
    create_label_file [] "/m/model.tflite" "Imagenet" =
      ([("/m/model.txt", renderLabels IMAGENET_LABELS)],
       ["Created label file: /m/model.txt with 20 labels"]) ∧
    create_label_file [] "/m/model.tflite" "voc" =
      ([], ["Unknown label type: voc"]) := by
  have h1 := (C10_create_label_file [("/m/model.txt", "old")]
    "/m/model.tflite" "coco").1 (by decide)
  have h2 := (C10_create_label_file [] "/m/model.tflite" "CoCo").2.1
    (by decide) (by decide)
  have h3 := (C10_create_label_file [] "/m/model.tflite" "Imagenet").2.2.1
    (by decide) (by decide)
  have h4 := (C10_create_label_file [] "/m/model.tflite" "voc").2.2.2
    (by decide) (by decide) (by decide)
  exact ⟨by rw [h1]; decide, by rw [h2]; decide, by rw [h3]; decide,
    by rw [h4]; decide⟩

end AICamera
